import Mathlib

/-!
Shallow embedding of the price-forecasting pipeline in
`src/price_prediction.py` (functions `prepare_time_series_data`,
`train_svr`, `evaluate_model`, `predict_future_prices`) together with the
behaviour of the sklearn primitives they call (`MinMaxScaler`,
`mean_squared_error`, `mean_absolute_error`, `r2_score`, `SVR.fit`).
Real-number arithmetic is modelled over `ℚ`; Python `int()` truncation is
modelled by `pyInt`.  Fallible calls return `Except PipelineError _`; the
constructors `insufficientData`, `invalidConfiguration` and
`evaluationError` correspond to the typed error taxonomy of the
specification (no such classes exist in the code), while
`libraryValueError` models the `ValueError`s raised by the underlying
sklearn validation routines.
-/

namespace PricePrediction

/-- Error outcomes of the embedded pipeline.  The first three constructors
come from the specification's error taxonomy; `libraryValueError` stands
for a `ValueError` raised inside sklearn (for example `fit` or `predict`
on an empty array, or `SVR.fit` on a multi-column target). -/
inductive PipelineError where
  | insufficientData
  | invalidConfiguration
  | evaluationError
  | libraryValueError
  deriving DecidableEq, Repr

/-- Python `int(q)` truncates toward zero. -/
def pyInt (q : ℚ) : ℤ := if 0 ≤ q then ⌊q⌋ else -⌊-q⌋

/-- sklearn `_handle_zeros_in_scale`: a zero data range is replaced by 1 so
that scaling never divides by zero. -/
def handleZerosInScale (r : ℚ) : ℚ := if r = 0 then 1 else r

/-- sklearn `MinMaxScaler` fitted state: the observed data minimum and
maximum (feature range is the default `(0, 1)`). -/
structure MinMaxScaler where
  dataMin : ℚ
  dataMax : ℚ
  deriving DecidableEq, Repr

/-- Fitted `scale_` attribute: `(1 - 0) / handle_zeros(data_max - data_min)`. -/
def MinMaxScaler.scale (s : MinMaxScaler) : ℚ :=
  1 / handleZerosInScale (s.dataMax - s.dataMin)

/-- Fitted `min_` attribute: `0 - data_min * scale_`. -/
def MinMaxScaler.minShift (s : MinMaxScaler) : ℚ :=
  0 - s.dataMin * s.scale

/-- sklearn `MinMaxScaler.transform` on a single value: `x * scale_ + min_`. -/
def MinMaxScaler.transform (s : MinMaxScaler) (x : ℚ) : ℚ :=
  x * s.scale + s.minShift

/-- sklearn `MinMaxScaler.inverse_transform` on a single value:
`(y - min_) / scale_`. -/
def MinMaxScaler.inverse_transform (s : MinMaxScaler) (y : ℚ) : ℚ :=
  (y - s.minShift) / s.scale

/-- Minimum of a list of closes (the list is nonempty in every use). -/
def listMin (l : List ℚ) : ℚ := l.foldl min (l.headD 0)

/-- Maximum of a list of closes. -/
def listMax (l : List ℚ) : ℚ := l.foldl max (l.headD 0)

/-- sklearn `MinMaxScaler.fit` over a series of closes: record the data
minimum and maximum. -/
def MinMaxScaler.fit (closes : List ℚ) : MinMaxScaler :=
  ⟨listMin closes, listMax closes⟩

/-- Result record of `prepare_time_series_data` (the returned dict). -/
structure PreparedData where
  X_train : List (List ℚ)
  y_train : List (List ℚ)
  X_test : List (List ℚ)
  y_test : List (List ℚ)
  scaler : MinMaxScaler
  latest_sequence : List ℚ
  deriving DecidableEq, Repr

/-- Number of iterations of the windowing loop
`for i in range(lookback, len(scaled_prices) - forecast_horizon)`. -/
def windowCount (n lookback horizon : ℕ) : ℕ := n - horizon - lookback

/-- Input rows built by the loop: for loop index `i` (start index
`j = i - lookback`) the row is `scaled_prices[i-lookback : i]`. -/
def inputWindows (scaled : List ℚ) (lookback horizon : ℕ) : List (List ℚ) :=
  (List.range (windowCount scaled.length lookback horizon)).map
    (fun j => (scaled.drop j).take lookback)

/-- Target rows built by the loop: for start index `j` the row is
`scaled_prices[i : i+forecast_horizon]` with `i = j + lookback`. -/
def targetWindows (scaled : List ℚ) (lookback horizon : ℕ) : List (List ℚ) :=
  (List.range (windowCount scaled.length lookback horizon)).map
    (fun j => (scaled.drop (j + lookback)).take horizon)

/-- Python slice `scaled_prices[-lookback:]`: the whole list when
`lookback = 0` (since `-0 == 0`) or when `lookback ≥ len`, otherwise the
last `lookback` elements. -/
def latestWindow (scaled : List ℚ) (lookback : ℕ) : List ℚ :=
  if lookback = 0 then scaled else scaled.drop (scaled.length - lookback)

/-- Scaled close series: every close transformed through the scaler fitted
on the full series. -/
def scaledSeries (data : List ℚ) : List ℚ :=
  data.map (MinMaxScaler.fit data).transform

/-- Split point `train_size = int(len(X) * (1 - test_size))`. -/
def trainSize (count : ℕ) (test_size : ℚ) : ℕ :=
  (pyInt ((count : ℚ) * (1 - test_size))).toNat

/-- Successful body of `prepare_time_series_data`: scale, window, and split
at `train_size`. -/
def prepareBody (data : List ℚ) (lookback forecast_horizon : ℕ)
    (test_size : ℚ) : PreparedData :=
  let scaled := scaledSeries data
  let X := inputWindows scaled lookback forecast_horizon
  let y := targetWindows scaled lookback forecast_horizon
  let train_size := trainSize X.length test_size
  { X_train := X.take train_size, y_train := y.take train_size,
    X_test := X.drop train_size, y_test := y.drop train_size,
    scaler := MinMaxScaler.fit data,
    latest_sequence := latestWindow scaled lookback }

/-- Embedding of `prepare_time_series_data(data, lookback,
forecast_horizon, test_size)`: fit a scaler on all closes, scale them,
build the windowed examples, and split at
`train_size = int(len(X) * (1 - test_size))`.  The only failing path is an
empty series, on which `MinMaxScaler.fit_transform` raises a library
`ValueError`; the code itself validates nothing. -/
def prepare_time_series_data (data : List ℚ) (lookback forecast_horizon : ℕ)
    (test_size : ℚ) : Except PipelineError PreparedData :=
  if data.isEmpty then .error .libraryValueError
  else .ok (prepareBody data lookback forecast_horizon test_size)

/-- Total number of examples (train plus test) in a preparation result;
0 on an error. -/
def exampleCount (r : Except PipelineError PreparedData) : ℕ :=
  match r with
  | .ok d => d.X_train.length + d.X_test.length
  | .error _ => 0

/-- Input window of example `i` in chronological order across the
train/test split; `[]` on an error or out of range. -/
def exampleInput (r : Except PipelineError PreparedData) (i : ℕ) : List ℚ :=
  match r with
  | .ok d => (d.X_train ++ d.X_test).getD i []
  | .error _ => []

/-- Target window of example `i` in chronological order across the
train/test split; `[]` on an error or out of range. -/
def exampleTarget (r : Except PipelineError PreparedData) (i : ℕ) : List ℚ :=
  match r with
  | .ok d => (d.y_train ++ d.y_test).getD i []
  | .error _ => []

/-- Size of the train split; 0 on an error. -/
def trainCount (r : Except PipelineError PreparedData) : ℕ :=
  match r with
  | .ok d => d.X_train.length
  | .error _ => 0

/-- Size of the test split; 0 on an error. -/
def testCount (r : Except PipelineError PreparedData) : ℕ :=
  match r with
  | .ok d => d.X_test.length
  | .error _ => 0

/-- Target row `i` of the train split; `[]` on an error or out of range. -/
def trainTargetAt (r : Except PipelineError PreparedData) (i : ℕ) : List ℚ :=
  match r with
  | .ok d => d.y_train.getD i []
  | .error _ => []

/-- Input row `i` of the test split; `[]` on an error or out of range. -/
def testInputAt (r : Except PipelineError PreparedData) (i : ℕ) : List ℚ :=
  match r with
  | .ok d => d.X_test.getD i []
  | .error _ => []

/-- Error component of a preparation result, `none` on success. -/
def prepErrOf (r : Except PipelineError PreparedData) : Option PipelineError :=
  match r with
  | .ok _ => none
  | .error e => some e

/-- Column `j` of a row-major matrix. -/
def matCol (m : List (List ℚ)) (j : ℕ) : List ℚ :=
  m.map (fun row => row.getD j 0)

/-- Number of columns of a row-major matrix (all rows of the numpy arrays
at the call sites have equal length). -/
def numCols (m : List (List ℚ)) : ℕ := (m.headD []).length

/-- Mean of a list (numpy `mean`; division by zero yields 0 in `ℚ`, a case
never reached at the call sites). -/
def listMean (l : List ℚ) : ℚ := l.sum / (l.length : ℚ)

/-- Elementwise squared errors of paired true/predicted values. -/
def colSqErr (t p : List ℚ) : List ℚ :=
  (t.zip p).map (fun a => (a.1 - a.2) ^ 2)

/-- Elementwise absolute errors of paired true/predicted values. -/
def colAbsErr (t p : List ℚ) : List ℚ :=
  (t.zip p).map (fun a => |a.1 - a.2|)

/-- Sum of squared residuals of one output column. -/
def sumSqErr (t p : List ℚ) : ℚ := (colSqErr t p).sum

/-- Sum of squared deviations of one output column from its own mean. -/
def sumSqDev (t : List ℚ) : ℚ :=
  (t.map (fun x => (x - listMean t) ^ 2)).sum

/-- sklearn `mean_squared_error` with the default
`multioutput='uniform_average'`: the per-column mean squared errors,
averaged uniformly over the columns. -/
def mean_squared_error (yt yp : List (List ℚ)) : ℚ :=
  listMean ((List.range (numCols yt)).map
    (fun j => listMean (colSqErr (matCol yt j) (matCol yp j))))

/-- sklearn `mean_absolute_error` with the default
`multioutput='uniform_average'`. -/
def mean_absolute_error (yt yp : List (List ℚ)) : ℚ :=
  listMean ((List.range (numCols yt)).map
    (fun j => listMean (colAbsErr (matCol yt j) (matCol yp j))))

/-- sklearn per-column R² score: `1 - SSres/SStot` when the column has
nonzero variance; a constant column scores 1 when its residuals are zero
and 0 otherwise. -/
def r2Col (t p : List ℚ) : ℚ :=
  if sumSqDev t = 0 then (if sumSqErr t p = 0 then 1 else 0)
  else 1 - sumSqErr t p / sumSqDev t

/-- sklearn `r2_score` with the default `multioutput='uniform_average'`:
the per-column R² scores averaged uniformly over the columns. -/
def r2_score (yt yp : List (List ℚ)) : ℚ :=
  listMean ((List.range (numCols yt)).map
    (fun j => r2Col (matCol yt j) (matCol yp j)))

/-- Metrics dict returned by `evaluate_model`.  The code stores
`rmse = sqrt(mse)`; `ℚ` has no square root, so the embedding keeps the
mean squared error itself, which determines the reported RMSE. -/
structure EvaluationMetrics where
  mse : ℚ
  mae : ℚ
  r2 : ℚ
  predictions : List (List ℚ)
  deriving DecidableEq, Repr

/-- Embedding of `evaluate_model(model, X_test, y_test)`.  A trained model
is an opaque mapping from an input window to a prediction row.  sklearn's
`predict` raises a `ValueError` on an array with zero samples, the only
failing path here; the code itself has no empty-test guard. -/
def evaluate_model (model : List ℚ → List ℚ)
    (X_test y_test : List (List ℚ)) : Except PipelineError EvaluationMetrics :=
  if X_test.isEmpty then .error .libraryValueError
  else
    let predictions := X_test.map model
    .ok { mse := mean_squared_error y_test predictions,
          mae := mean_absolute_error y_test predictions,
          r2 := r2_score y_test predictions,
          predictions := predictions }

/-- R² component of an evaluation result; 0 on an error. -/
def evalR2 (r : Except PipelineError EvaluationMetrics) : ℚ :=
  match r with
  | .ok m => m.r2
  | .error _ => 0

/-- Error component of an evaluation result, `none` on success. -/
def evalErrOf (r : Except PipelineError EvaluationMetrics) :
    Option PipelineError :=
  match r with
  | .ok _ => none
  | .error e => some e

/-- Flattened (row-major) view of a matrix, as in numpy `ravel`. -/
def matFlatten (m : List (List ℚ)) : List ℚ := m.foldr (· ++ ·) []

/-- Following the specification's words for comparison with the code: the
pooled R² over the flattened matrices, `1 −` (sum of squared residuals)
`/` (sum of squared deviations from the mean of all flattened targets). -/
def specR2Pooled (yt yp : List (List ℚ)) : ℚ :=
  1 - sumSqErr (matFlatten yt) (matFlatten yp) / sumSqDev (matFlatten yt)

/-- Fitted state of a single sklearn `SVR`: the training inputs and the
single-output target column it was fit on. -/
structure SVRModel where
  fitX : List (List ℚ)
  fitY : List ℚ
  deriving DecidableEq, Repr

/-- sklearn `SVR.fit(X, y)` target validation (`column_or_1d`): a target
of shape `(n,)` or `(n, 1)` is accepted (the latter is raveled with a
`DataConversionWarning`); a target with two or more columns raises a
`ValueError`. -/
def svrFit (X : List (List ℚ)) (y : List (List ℚ)) :
    Except PipelineError SVRModel :=
  if numCols y ≤ 1 then .ok ⟨X, y.map (fun row => row.getD 0 0)⟩
  else .error .libraryValueError

/-- Embedding of `train_svr(X_train, y_train)`: a single
`SVR(kernel='rbf', C=100, gamma=0.1, epsilon=0.1)` is fit once on the full
target matrix. -/
def train_svr (X_train y_train : List (List ℚ)) :
    Except PipelineError SVRModel :=
  svrFit X_train y_train

/-- Following the specification's words for comparison with the code:
H independent single-output sub-models, one per forecast step, each fit on
the same inputs against the corresponding target column. -/
def specTrainSvrPerColumn (X y : List (List ℚ)) : List SVRModel :=
  (List.range (numCols y)).map (fun j => ⟨X, matCol y j⟩)

/-- Embedding of `predict_future_prices(model, latest_data, scaler,
forecast_horizon)`: the model's scaled prediction for the latest window,
inverse-transformed elementwise (`forecast_horizon` is accepted but unused
by the code). -/
def predict_future_prices (model : List ℚ → List ℚ) (latest_data : List ℚ)
    (scaler : MinMaxScaler) (forecast_horizon : ℕ) : List ℚ :=
  (model latest_data).map scaler.inverse_transform

/-! Helper lemmas shared by the claim theorems. -/

theorem MinMaxScaler.scale_ne_zero (s : MinMaxScaler) : s.scale ≠ 0 := by
  unfold MinMaxScaler.scale handleZerosInScale
  split
  · norm_num
  · exact one_div_ne_zero (by assumption)

theorem MinMaxScaler.inverse_transform_transform (s : MinMaxScaler)
    (x : ℚ) : s.inverse_transform (s.transform x) = x := by
  unfold MinMaxScaler.inverse_transform MinMaxScaler.transform
  rw [add_sub_cancel_right]
  exact mul_div_cancel_right₀ x s.scale_ne_zero

theorem prepare_eq_ok (data : List ℚ) (L H : ℕ) (f : ℚ)
    (hne : data ≠ []) :
    prepare_time_series_data data L H f = .ok (prepareBody data L H f) := by
  cases data with
  | nil => exact absurd rfl hne
  | cons a l => rfl

theorem length_scaledSeries (data : List ℚ) :
    (scaledSeries data).length = data.length := by
  simp [scaledSeries]

theorem length_inputWindows (scaled : List ℚ) (L H : ℕ) :
    (inputWindows scaled L H).length = windowCount scaled.length L H := by
  simp [inputWindows]

theorem length_targetWindows (scaled : List ℚ) (L H : ℕ) :
    (targetWindows scaled L H).length = windowCount scaled.length L H := by
  simp [targetWindows]

theorem inputWindows_getD (scaled : List ℚ) (L H i : ℕ)
    (h : i < windowCount scaled.length L H) :
    (inputWindows scaled L H).getD i [] = (scaled.drop i).take L := by
  have h' : i < (inputWindows scaled L H).length := by
    simpa [length_inputWindows] using h
  rw [List.getD_eq_getElem _ _ h']
  simp [inputWindows]

theorem targetWindows_getD (scaled : List ℚ) (L H i : ℕ)
    (h : i < windowCount scaled.length L H) :
    (targetWindows scaled L H).getD i [] = (scaled.drop (i + L)).take H := by
  have h' : i < (targetWindows scaled L H).length := by
    simpa [length_targetWindows] using h
  rw [List.getD_eq_getElem _ _ h']
  simp [targetWindows]

theorem prepareBody_X_train (data : List ℚ) (L H : ℕ) (f : ℚ) :
    (prepareBody data L H f).X_train
      = (inputWindows (scaledSeries data) L H).take
          (trainSize (windowCount data.length L H) f) := by
  simp [prepareBody, length_inputWindows, length_scaledSeries]

theorem prepareBody_X_test (data : List ℚ) (L H : ℕ) (f : ℚ) :
    (prepareBody data L H f).X_test
      = (inputWindows (scaledSeries data) L H).drop
          (trainSize (windowCount data.length L H) f) := by
  simp [prepareBody, length_inputWindows, length_scaledSeries]

theorem prepareBody_y_train (data : List ℚ) (L H : ℕ) (f : ℚ) :
    (prepareBody data L H f).y_train
      = (targetWindows (scaledSeries data) L H).take
          (trainSize (windowCount data.length L H) f) := by
  simp [prepareBody, length_inputWindows, length_scaledSeries]

theorem prepareBody_y_test (data : List ℚ) (L H : ℕ) (f : ℚ) :
    (prepareBody data L H f).y_test
      = (targetWindows (scaledSeries data) L H).drop
          (trainSize (windowCount data.length L H) f) := by
  simp [prepareBody, length_inputWindows, length_scaledSeries]

theorem exampleCount_prepare (data : List ℚ) (L H : ℕ) (f : ℚ)
    (hne : data ≠ []) :
    exampleCount (prepare_time_series_data data L H f)
      = windowCount data.length L H := by
  rw [prepare_eq_ok data L H f hne]
  show (prepareBody data L H f).X_train.length
      + (prepareBody data L H f).X_test.length = _
  rw [prepareBody_X_train, prepareBody_X_test]
  simp [length_inputWindows, length_scaledSeries]
  omega

theorem trainCount_prepare (data : List ℚ) (L H : ℕ) (f : ℚ)
    (hne : data ≠ []) :
    trainCount (prepare_time_series_data data L H f)
      = min (trainSize (windowCount data.length L H) f)
          (windowCount data.length L H) := by
  rw [prepare_eq_ok data L H f hne]
  show (prepareBody data L H f).X_train.length = _
  rw [prepareBody_X_train]
  simp [length_inputWindows, length_scaledSeries]

theorem testCount_prepare (data : List ℚ) (L H : ℕ) (f : ℚ)
    (hne : data ≠ []) :
    testCount (prepare_time_series_data data L H f)
      = windowCount data.length L H
          - trainSize (windowCount data.length L H) f := by
  rw [prepare_eq_ok data L H f hne]
  show (prepareBody data L H f).X_test.length = _
  rw [prepareBody_X_test]
  simp [length_inputWindows, length_scaledSeries]

theorem exampleInput_prepare (data : List ℚ) (L H : ℕ) (f : ℚ)
    (hne : data ≠ []) (i : ℕ) (hi : i < windowCount data.length L H) :
    exampleInput (prepare_time_series_data data L H f) i
      = ((scaledSeries data).drop i).take L := by
  rw [prepare_eq_ok data L H f hne]
  show ((prepareBody data L H f).X_train
      ++ (prepareBody data L H f).X_test).getD i [] = _
  rw [prepareBody_X_train, prepareBody_X_test, List.take_append_drop]
  exact inputWindows_getD _ L H i (by simpa [length_scaledSeries] using hi)

theorem exampleTarget_prepare (data : List ℚ) (L H : ℕ) (f : ℚ)
    (hne : data ≠ []) (i : ℕ) (hi : i < windowCount data.length L H) :
    exampleTarget (prepare_time_series_data data L H f) i
      = ((scaledSeries data).drop (i + L)).take H := by
  rw [prepare_eq_ok data L H f hne]
  show ((prepareBody data L H f).y_train
      ++ (prepareBody data L H f).y_test).getD i [] = _
  rw [prepareBody_y_train, prepareBody_y_test, List.take_append_drop]
  exact targetWindows_getD _ L H i (by simpa [length_scaledSeries] using hi)

theorem testInputAt_prepare (data : List ℚ) (L H : ℕ) (f : ℚ)
    (hne : data ≠ []) (q : ℕ)
    (hq : q < testCount (prepare_time_series_data data L H f)) :
    testInputAt (prepare_time_series_data data L H f) q
      = ((scaledSeries data).drop
          (trainCount (prepare_time_series_data data L H f) + q)).take L := by
  have hcnt := testCount_prepare data L H f hne
  have htr := trainCount_prepare data L H f hne
  rw [hcnt] at hq
  have hts : trainSize (windowCount data.length L H) f
      < windowCount data.length L H := by omega
  have htr' : trainCount (prepare_time_series_data data L H f)
      = trainSize (windowCount data.length L H) f := by
    rw [htr]
    omega
  rw [htr', prepare_eq_ok data L H f hne]
  show ((prepareBody data L H f).X_test).getD q [] = _
  rw [prepareBody_X_test]
  have hlen : q < ((inputWindows (scaledSeries data) L H).drop
      (trainSize (windowCount data.length L H) f)).length := by
    simp [length_inputWindows, length_scaledSeries]
    omega
  rw [List.getD_eq_getElem _ _ hlen, List.getElem_drop]
  simp [inputWindows]

theorem trainTargetAt_prepare (data : List ℚ) (L H : ℕ) (f : ℚ)
    (hne : data ≠ []) (i : ℕ)
    (hi : i < trainCount (prepare_time_series_data data L H f)) :
    trainTargetAt (prepare_time_series_data data L H f) i
      = ((scaledSeries data).drop (i + L)).take H := by
  have htr := trainCount_prepare data L H f hne
  rw [htr] at hi
  rw [prepare_eq_ok data L H f hne]
  show ((prepareBody data L H f).y_train).getD i [] = _
  rw [prepareBody_y_train]
  have hlen : i < ((targetWindows (scaledSeries data) L H).take
      (trainSize (windowCount data.length L H) f)).length := by
    simp [length_targetWindows, length_scaledSeries]
    omega
  rw [List.getD_eq_getElem _ _ hlen, List.getElem_take]
  simp [targetWindows]

theorem trainSize_eq_floor (count : ℕ) (f : ℚ) (hf1 : f ≤ 1) :
    trainSize count f = (⌊(count : ℚ) * (1 - f)⌋).toNat := by
  unfold trainSize pyInt
  rw [if_pos (mul_nonneg (Nat.cast_nonneg _) (by linarith))]

theorem trainSize_le (count : ℕ) (f : ℚ) (hf0 : 0 ≤ f) (hf1 : f ≤ 1) :
    trainSize count f ≤ count := by
  rw [trainSize_eq_floor count f hf1]
  have h1 : (count : ℚ) * (1 - f) ≤ (count : ℚ) := by
    have h2 : 0 ≤ (count : ℚ) * f := mul_nonneg (Nat.cast_nonneg _) hf0
    nlinarith
  have h3 : ⌊(count : ℚ) * (1 - f)⌋ ≤ (count : ℤ) := by
    have h4 := Int.floor_le_floor h1
    rwa [Int.floor_natCast] at h4
  omega

/-! Claim theorems. -/

/-- Claim C4 (confirmed): for every price series, the fitted min-max
scaler round-trips every close of the series:
`inverse_transform (transform x) = x`, exactly over `ℚ` (the
floating-point version of the code agrees within epsilon). -/
theorem scaler_round_trip (closes : List ℚ) (x : ℚ) (hx : x ∈ closes) :
    (MinMaxScaler.fit closes).inverse_transform
      ((MinMaxScaler.fit closes).transform x) = x :=
  (MinMaxScaler.fit closes).inverse_transform_transform x

/-- Witness for C4 at the concrete series `[2, 5, 9]` and close `5`. -/
theorem scaler_round_trip_witness :
    (5 : ℚ) ∈ [(2 : ℚ), 5, 9] ∧
    (MinMaxScaler.fit [2, 5, 9]).inverse_transform
      ((MinMaxScaler.fit [2, 5, 9]).transform 5) = 5 :=
  ⟨by decide, scaler_round_trip [2, 5, 9] 5 (by decide)⟩

/-- Claim C2 (code bug): `train_svr` passes the full H-column target
matrix to one single-output `SVR`.  At the failing input
`X_train = [[0], [1]]`, `y_train = [[0, 1], [1, 2]]` (horizon `H = 2`),
the single `SVR.fit` rejects the two-column target with a library
`ValueError`, while the specification's per-column decomposition would
fit two independent sub-models. -/
theorem train_svr_single_model_rejects_multioutput :
    train_svr [[(0 : ℚ)], [1]] [[0, 1], [1, 2]]
        = Except.error PipelineError.libraryValueError ∧
    (specTrainSvrPerColumn [[(0 : ℚ)], [1]] [[0, 1], [1, 2]]).length = 2 :=
  ⟨rfl, rfl⟩

/-- Counterexample to claim C7: on an empty test split the code fails
inside sklearn's `predict` input validation with a library `ValueError`,
not with the specification's typed `EvaluationError` (no such class
exists in the code). -/
theorem evaluate_empty_library_error_counterexample :
    evalErrOf (evaluate_model (fun _ => [0]) [] [])
        = some PipelineError.libraryValueError ∧
    PipelineError.libraryValueError ≠ PipelineError.evaluationError :=
  ⟨rfl, by decide⟩

/-- Claim C7 (corrected): with an empty test split `evaluate_model` always
fails and never returns metric values, but the failure is the underlying
library's `ValueError`, not a typed `EvaluationError`. -/
theorem evaluate_model_empty_test_fails (model : List ℚ → List ℚ)
    (y : List (List ℚ)) :
    evaluate_model model [] y
        = Except.error PipelineError.libraryValueError :=
  rfl

/-- Counterexample to claim C8: each degenerate configuration `L = 0`,
`H = 0`, `f = 0`, `f = 1` is processed without any error; no
`InvalidConfigurationError` is raised (the class does not exist in the
code). -/
theorem prepare_no_validation_counterexample :
    prepErrOf (prepare_time_series_data [1, 2, 3, 4] 0 1 (1/2)) = none ∧
    prepErrOf (prepare_time_series_data [1, 2, 3, 4] 2 0 (1/2)) = none ∧
    prepErrOf (prepare_time_series_data [1, 2, 3, 4] 2 1 0) = none ∧
    prepErrOf (prepare_time_series_data [1, 2, 3, 4] 2 1 1) = none :=
  ⟨rfl, rfl, rfl, rfl⟩

/-- Claim C8 (corrected): the pipeline performs no configuration
validation at all: for every non-empty series and every `L`, `H`, `f`
(including `L = 0`, `H = 0`, `f = 0`, `f = 1`) the preparation step
returns a dataset and raises nothing. -/
theorem prepare_accepts_any_configuration (data : List ℚ) (L H : ℕ)
    (f : ℚ) (hne : data ≠ []) :
    prepErrOf (prepare_time_series_data data L H f) = none := by
  rw [prepare_eq_ok data L H f hne]
  rfl

/-- Witness for C8 at the degenerate configuration `L = 0`, `H = 0`,
`f = 1`. -/
theorem prepare_accepts_any_configuration_witness :
    [(1 : ℚ), 2, 3, 4] ≠ [] ∧
    prepErrOf (prepare_time_series_data [1, 2, 3, 4] 0 0 1) = none :=
  ⟨by decide,
    prepare_accepts_any_configuration [1, 2, 3, 4] 0 0 1 (by decide)⟩

/-- Counterexample to claim C3: the series `[1, 2, 3]` with `L = H = 2`
has `N = 3 < L + H + 1 = 5`, yet preparation raises nothing and silently
returns a dataset with zero examples. -/
theorem prepare_short_series_counterexample :
    prepErrOf (prepare_time_series_data [1, 2, 3] 2 2 (1/5)) = none ∧
    exampleCount (prepare_time_series_data [1, 2, 3] 2 2 (1/5)) = 0 := by
  refine ⟨rfl, ?_⟩
  rw [exampleCount_prepare [1, 2, 3] 2 2 (1/5) (by decide)]
  rfl

/-- Claim C3 (corrected): for every non-empty series with
`N < L + H + 1`, `prepare_time_series_data` raises no error (there is no
`InsufficientDataError` in the code) and returns a dataset with zero
examples. -/
theorem prepare_short_series_silent_empty (data : List ℚ) (L H : ℕ)
    (f : ℚ) (hne : data ≠ []) (hshort : data.length < L + H + 1) :
    prepErrOf (prepare_time_series_data data L H f) = none ∧
    exampleCount (prepare_time_series_data data L H f) = 0 := by
  refine ⟨?_, ?_⟩
  · rw [prepare_eq_ok data L H f hne]
    rfl
  · rw [exampleCount_prepare data L H f hne]
    unfold windowCount
    omega

/-- Witness for C3 at the concrete short series `[1, 2, 3]` with
`L = H = 2`. -/
theorem prepare_short_series_silent_empty_witness :
    ([(1 : ℚ), 2, 3] ≠ [] ∧ [(1 : ℚ), 2, 3].length < 2 + 2 + 1) ∧
    (prepErrOf (prepare_time_series_data [1, 2, 3] 2 2 (1/3)) = none ∧
     exampleCount (prepare_time_series_data [1, 2, 3] 2 2 (1/3)) = 0) :=
  ⟨⟨by decide, by decide⟩,
    prepare_short_series_silent_empty [1, 2, 3] 2 2 (1/3)
      (by decide) (by decide)⟩

/-- Counterexample to claim C1: for the series `[1, 2, 3, 4]` with
`L = H = 1` (so `N = 4 ≥ L + H + 1`), the code produces 2 examples, not
`N − L − H + 1 = 3`: the window whose target ends at the last series
element is never generated. -/
theorem prepare_example_count_counterexample :
    exampleCount (prepare_time_series_data [1, 2, 3, 4] 1 1 (1/5)) = 2 ∧
    (2 : ℕ) ≠ [(1 : ℚ), 2, 3, 4].length - 1 - 1 + 1 := by
  refine ⟨?_, by decide⟩
  rw [exampleCount_prepare [1, 2, 3, 4] 1 1 (1/5) (by decide)]
  rfl

/-- Claim C1 (corrected): with `L, H ≥ 1` and `N ≥ L + H + 1`,
`prepare_time_series_data` produces exactly `N − L − H` examples — one
fewer than the claimed `N − L − H + 1` — one per start index
`i ∈ [0, N − L − H − 1]`, where example `i` has input
`scaled[i : i+L]` and target `scaled[i+L : i+L+H]`. -/
theorem prepare_example_count_and_slices (data : List ℚ) (L H : ℕ)
    (f : ℚ) (hL : 1 ≤ L) (hH : 1 ≤ H) (hN : L + H + 1 ≤ data.length) :
    exampleCount (prepare_time_series_data data L H f)
        = data.length - L - H ∧
    ∀ i, i < data.length - L - H →
      exampleInput (prepare_time_series_data data L H f) i
          = ((scaledSeries data).drop i).take L ∧
      exampleTarget (prepare_time_series_data data L H f) i
          = ((scaledSeries data).drop (i + L)).take H := by
  have hne : data ≠ [] := by
    intro h
    rw [h] at hN
    simp at hN
  have hwc : windowCount data.length L H = data.length - L - H := by
    unfold windowCount
    omega
  refine ⟨?_, ?_⟩
  · rw [exampleCount_prepare data L H f hne, hwc]
  · intro i hi
    have hi' : i < windowCount data.length L H := by omega
    exact ⟨exampleInput_prepare data L H f hne i hi',
      exampleTarget_prepare data L H f hne i hi'⟩

/-- Witness for C1 at the concrete series `[1, 2, 3, 4, 5]` with `L = 2`,
`H = 1`, `f = 1/4`. -/
theorem prepare_example_count_and_slices_witness :
    exampleCount (prepare_time_series_data [1, 2, 3, 4, 5] 2 1 (1/4))
        = [(1 : ℚ), 2, 3, 4, 5].length - 2 - 1 ∧
    ∀ i, i < [(1 : ℚ), 2, 3, 4, 5].length - 2 - 1 →
      exampleInput (prepare_time_series_data [1, 2, 3, 4, 5] 2 1 (1/4)) i
          = ((scaledSeries [1, 2, 3, 4, 5]).drop i).take 2 ∧
      exampleTarget (prepare_time_series_data [1, 2, 3, 4, 5] 2 1 (1/4)) i
          = ((scaledSeries [1, 2, 3, 4, 5]).drop (i + 2)).take 1 :=
  prepare_example_count_and_slices [1, 2, 3, 4, 5] 2 1 (1/4)
    (by decide) (by decide) (by decide)

/-- Counterexample to claim C5: for `[1, 2, 3, 4, 5, 6]` with `L = H = 1`,
`f = 1/2`, the split is 2 train / 2 test, yet the last train example's
target is exactly the first test example's input — both are the slice
`scaled[2 : 3]`.  The train example thus ends at series index 2 while the
test example starts at series index 2, so the train end index is not
strictly less than the test start index. -/
theorem prepare_chronological_overlap_counterexample :
    trainCount (prepare_time_series_data [1, 2, 3, 4, 5, 6] 1 1 (1/2))
        = 2 ∧
    testCount (prepare_time_series_data [1, 2, 3, 4, 5, 6] 1 1 (1/2))
        = 2 ∧
    trainTargetAt (prepare_time_series_data [1, 2, 3, 4, 5, 6] 1 1 (1/2)) 1
        = testInputAt
            (prepare_time_series_data [1, 2, 3, 4, 5, 6] 1 1 (1/2)) 0 ∧
    trainTargetAt (prepare_time_series_data [1, 2, 3, 4, 5, 6] 1 1 (1/2)) 1
        ≠ [] := by
  have hne : [(1 : ℚ), 2, 3, 4, 5, 6] ≠ [] := by decide
  have hsz : trainSize (windowCount [(1 : ℚ), 2, 3, 4, 5, 6].length 1 1)
      (1/2) = 2 := by
    rw [trainSize_eq_floor _ _ (by norm_num)]
    norm_num [windowCount, Int.floor_eq_iff]
    decide
  have htr : trainCount
      (prepare_time_series_data [1, 2, 3, 4, 5, 6] 1 1 (1/2)) = 2 := by
    rw [trainCount_prepare _ _ _ _ hne, hsz]
    decide
  have hte : testCount
      (prepare_time_series_data [1, 2, 3, 4, 5, 6] 1 1 (1/2)) = 2 := by
    rw [testCount_prepare _ _ _ _ hne, hsz]
    decide
  refine ⟨htr, hte, ?_, ?_⟩
  · rw [trainTargetAt_prepare _ _ _ _ hne 1 (by omega),
      testInputAt_prepare _ _ _ _ hne 0 (by omega), htr]
  · rw [trainTargetAt_prepare _ _ _ _ hne 1 (by omega)]
    intro hcontra
    have hlen := congrArg List.length hcontra
    simp [length_scaledSeries] at hlen

/-- Claim C5 (corrected): the split point is
`train_size = ⌊(1 − f) · example_count⌋`; examples `[0, train_size)` form
the train split and `[train_size, example_count)` the test split, and
chronological order holds for start indices: train example `p` is the
window starting at series index `p`, test example `q` the window starting
at series index `train_size + q`, and `p < train_size + q`.  The original
end-index statement is false: each train example extends `L + H − 1`
series indices past its start and overlaps the test windows. -/
theorem prepare_split_sizes_and_start_order (data : List ℚ) (L H : ℕ)
    (f : ℚ) (hne : data ≠ []) (hf0 : 0 < f) (hf1 : f < 1) :
    trainCount (prepare_time_series_data data L H f)
        = (⌊(windowCount data.length L H : ℚ) * (1 - f)⌋).toNat ∧
    trainCount (prepare_time_series_data data L H f)
        + testCount (prepare_time_series_data data L H f)
        = windowCount data.length L H ∧
    (∀ p, p < trainCount (prepare_time_series_data data L H f) →
      exampleInput (prepare_time_series_data data L H f) p
          = ((scaledSeries data).drop p).take L) ∧
    (∀ q, q < testCount (prepare_time_series_data data L H f) →
      testInputAt (prepare_time_series_data data L H f) q
          = ((scaledSeries data).drop
              (trainCount (prepare_time_series_data data L H f) + q)).take L) ∧
    ∀ p q, p < trainCount (prepare_time_series_data data L H f) →
      p < trainCount (prepare_time_series_data data L H f) + q := by
  have htr := trainCount_prepare data L H f hne
  have hts := testCount_prepare data L H f hne
  have hle := trainSize_le (windowCount data.length L H) f
    (le_of_lt hf0) (le_of_lt hf1)
  have hfl := trainSize_eq_floor (windowCount data.length L H) f
    (le_of_lt hf1)
  refine ⟨?_, ?_, ?_, ?_, ?_⟩
  · rw [htr, ← hfl]
    omega
  · rw [htr, hts]
    omega
  · intro p hp
    have hp' : p < windowCount data.length L H := by
      rw [htr] at hp
      omega
    exact exampleInput_prepare data L H f hne p hp'
  · intro q hq
    exact testInputAt_prepare data L H f hne q hq
  · intro p q hp
    omega

/-- Witness for C5 at the concrete series `[1, 2, 3, 4, 5, 6]` with
`L = H = 1`, `f = 1/2`: the split point is the floor of half the example
count. -/
theorem prepare_split_sizes_and_start_order_witness :
    trainCount (prepare_time_series_data [1, 2, 3, 4, 5, 6] 1 1 (1/2))
        = (⌊(windowCount [(1 : ℚ), 2, 3, 4, 5, 6].length 1 1 : ℚ)
            * (1 - 1/2)⌋).toNat :=
  (prepare_split_sizes_and_start_order [1, 2, 3, 4, 5, 6] 1 1 (1/2)
    (by decide) one_half_pos one_half_lt_one).1

/-- Counterexample to claim C6: with test inputs `[[0], [1]]`, targets
`[[0, 0], [1, 10]]` and the model `x ↦ [0, 10 · x₀]` (predictions
`[[0, 0], [0, 10]]`), the code returns R² = 0 — the uniform average of the
per-column scores −1 and 1 — while the claimed pooled flattened formula
gives `279/283`. -/
theorem evaluate_r2_not_pooled_counterexample :
    evalR2 (evaluate_model (fun x => [0, 10 * x.headD 0])
        [[0], [1]] [[0, 0], [1, 10]]) = 0 ∧
    specR2Pooled [[(0 : ℚ), 0], [1, 10]]
        (([[(0 : ℚ)], [1]]).map (fun x => [0, 10 * x.headD 0]))
        = 279 / 283 ∧
    (0 : ℚ) ≠ 279 / 283 := by
  refine ⟨?_, ?_, by norm_num⟩
  · norm_num [evaluate_model, evalR2, r2_score, r2Col, sumSqErr, sumSqDev,
      colSqErr, listMean, matCol, numCols, List.range_succ, List.zip]
  · norm_num [specR2Pooled, matFlatten, sumSqErr, sumSqDev, colSqErr,
      listMean, List.zip]

/-- Claim C6 (corrected): for a non-empty test split, `evaluate_model`
succeeds and its R² is sklearn's uniform average over the target columns
of the per-column scores; on every column of nonzero variance the
per-column score is `1 − SSres_j / SStot_j`, computed against that
column's own mean — not the flattened pooled formula of the claim. -/
theorem evaluate_r2_uniform_average (model : List ℚ → List ℚ)
    (X y : List (List ℚ)) (hX : X ≠ []) :
    evalErrOf (evaluate_model model X y) = none ∧
    evalR2 (evaluate_model model X y)
        = listMean ((List.range (numCols y)).map
            (fun j => r2Col (matCol y j) (matCol (X.map model) j))) ∧
    ∀ j, sumSqDev (matCol y j) ≠ 0 →
      r2Col (matCol y j) (matCol (X.map model) j)
          = 1 - sumSqErr (matCol y j) (matCol (X.map model) j)
              / sumSqDev (matCol y j) := by
  cases X with
  | nil => exact absurd rfl hX
  | cons x xs =>
    refine ⟨rfl, rfl, ?_⟩
    intro j hj
    unfold r2Col
    rw [if_neg hj]

/-- Witness for C6 at a concrete two-example test split. -/
theorem evaluate_r2_uniform_average_witness :
    evalErrOf (evaluate_model (fun _ => [(0 : ℚ)]) [[1], [2]] [[1], [3]])
        = none :=
  (evaluate_r2_uniform_average (fun _ => [(0 : ℚ)]) [[1], [2]] [[1], [3]]
    (by decide)).1

/-- Claim C9 (confirmed): whenever the trained model's scaled prediction
for the latest window is an `H`-vector, `predict_future_prices` returns
exactly `H` prices, each the inverse transform of the corresponding
scaled prediction entry. -/
theorem predict_future_prices_horizon (model : List ℚ → List ℚ)
    (latest : List ℚ) (scaler : MinMaxScaler) (fh H : ℕ)
    (hH : (model latest).length = H) :
    (predict_future_prices model latest scaler fh).length = H ∧
    ∀ i, i < H →
      (predict_future_prices model latest scaler fh).getD i 0
          = scaler.inverse_transform ((model latest).getD i 0) := by
  refine ⟨by simp [predict_future_prices, hH], ?_⟩
  intro i hi
  have h1 : i < (model latest).length := by omega
  have h2 : i < (predict_future_prices model latest scaler fh).length := by
    simpa [predict_future_prices] using h1
  rw [List.getD_eq_getElem _ _ h2, List.getD_eq_getElem _ _ h1]
  simp [predict_future_prices]

/-- Witness for C9 with a concrete model predicting the 2-vector
`[1/2, 1/4]` and the scaler fitted on `[0, 2]`. -/
theorem predict_future_prices_horizon_witness :
    (predict_future_prices (fun _ => [(1 : ℚ)/2, 1/4]) [0]
        (MinMaxScaler.fit [0, 2]) 2).length = 2 ∧
    ∀ i, i < 2 →
      (predict_future_prices (fun _ => [(1 : ℚ)/2, 1/4]) [0]
          (MinMaxScaler.fit [0, 2]) 2).getD i 0
          = (MinMaxScaler.fit [0, 2]).inverse_transform
              (((fun _ => [(1 : ℚ)/2, 1/4]) ([0] : List ℚ)).getD i 0) :=
  predict_future_prices_horizon (fun _ => [(1 : ℚ)/2, 1/4]) [0]
    (MinMaxScaler.fit [0, 2]) 2 2 rfl

/-- Claim C10 (confirmed): whenever the prepared dataset has at least one
example and `f ∈ (0, 1)`, the test split is non-empty — the split point
`⌊(1 − f) · example_count⌋` is strictly below the example count, so at
least one example lands in the test suffix (the train split may still be
empty for small example counts, as the witness shows). -/
theorem prepare_test_split_nonempty (data : List ℚ) (L H : ℕ) (f : ℚ)
    (hf0 : 0 < f) (hf1 : f < 1)
    (hcnt : 1 ≤ exampleCount (prepare_time_series_data data L H f)) :
    1 ≤ testCount (prepare_time_series_data data L H f) := by
  rcases eq_or_ne data [] with hnil | hne
  · subst hnil
    simp [prepare_time_series_data, exampleCount] at hcnt
  · rw [exampleCount_prepare data L H f hne] at hcnt
    rw [testCount_prepare data L H f hne]
    have h0 : 0 ≤ (windowCount data.length L H : ℚ) * (1 - f) :=
      mul_nonneg (Nat.cast_nonneg _) (by linarith)
    have hts := trainSize_eq_floor (windowCount data.length L H) f
      (le_of_lt hf1)
    have hcpos : (0 : ℚ) < (windowCount data.length L H : ℚ) := by
      exact_mod_cast hcnt
    have hlt : (windowCount data.length L H : ℚ) * (1 - f)
        < (windowCount data.length L H : ℚ) := by
      have hexp : (windowCount data.length L H : ℚ) * (1 - f)
          = (windowCount data.length L H : ℚ)
            - (windowCount data.length L H : ℚ) * f := by ring
      have hpos := mul_pos hcpos hf0
      linarith
    have hfl : ⌊(windowCount data.length L H : ℚ) * (1 - f)⌋
        < (windowCount data.length L H : ℤ) := by
      rw [Int.floor_lt]
      exact_mod_cast hlt
    have hnn : 0 ≤ ⌊(windowCount data.length L H : ℚ) * (1 - f)⌋ :=
      Int.floor_nonneg.mpr h0
    rw [hts]
    omega

/-- Witness for C10 at `[1, 2, 3]` with `L = H = 1`, `f = 1/2`: a single
example, which lands in the test split while the train split is empty. -/
theorem prepare_test_split_nonempty_witness :
    1 ≤ testCount (prepare_time_series_data [1, 2, 3] 1 1 (1/2)) ∧
    trainCount (prepare_time_series_data [1, 2, 3] 1 1 (1/2)) = 0 := by
  refine ⟨prepare_test_split_nonempty [1, 2, 3] 1 1 (1/2)
    one_half_pos one_half_lt_one ?_, ?_⟩
  · rw [exampleCount_prepare [1, 2, 3] 1 1 (1/2) (by decide)]
    decide
  · rw [trainCount_prepare [1, 2, 3] 1 1 (1/2) (by decide),
      trainSize_eq_floor _ _ (by norm_num)]
    norm_num [windowCount, Int.floor_eq_iff]

end PricePrediction
